import Mathlib

/-
  Verification development for the postal Go client library.

  The Go sources (postal.go and the send-service file) are shallowly embedded
  below.  JSON documents are modelled by the inductive `Json` (numbers as
  exact rationals), HTTP headers by association lists keyed by the canonical
  MIME header key, and Go runtime panics by the `Outcome.crash` constructor.
  Fields of Go type `interface\x7b\x7d` are modelled as `Json` values, where
  `Json.null` stands for the nil interface (covering both an absent JSON field
  and an explicit JSON null, exactly as `encoding/json` produces them).
-/

namespace Postal

/-- A JSON value.  Numbers are modelled as exact rationals, which is faithful
for the pass-through use the library makes of them (no arithmetic is ever
performed on decoded numbers). -/
inductive Json where
  | null
  | bool (b : Bool)
  | num (q : ℚ)
  | str (s : String)
  | arr (elems : List Json)
  | obj (fields : List (String × Json))

/-- Field lookup in a decoded JSON object.  `encoding/json` lets a later
duplicate key overwrite an earlier one, so the lookup prefers the last
occurrence. -/
def lookupField : List (String × Json) → String → Option Json
  | [], _ => none
  | (k, v) :: rest, key =>
    match lookupField rest key with
    | some w => some w
    | none => if k = key then some v else none

/-- The fragment of `net/url.URL` the library uses: scheme, host and path. -/
structure URL where
  scheme : String
  host : String
  path : String
deriving DecidableEq, Repr

/-- Rendering of a URL, modelling `(*url.URL).String` on the fragment above. -/
def urlString (u : URL) : String :=
  (if u.scheme = "" then "" else u.scheme ++ "://" ++ u.host) ++ u.path

def hexDigit (c : Char) : Bool :=
  c.isDigit || ('a' ≤ c && c ≤ 'f') || ('A' ≤ c && c ≤ 'F')

/-- Every percent sign must be followed by two hex digits, as `net/url`
requires of escape sequences. -/
def validEscapes : List Char → Bool
  | [] => true
  | '%' :: a :: b :: rest => hexDigit a && hexDigit b && validEscapes rest
  | '%' :: _ => false
  | _ :: rest => validEscapes rest

/-- Splitting at the first scheme separator: `splitScheme cs` returns the
characters before and after the first occurrence of the three characters of
the separator between a scheme and an authority. -/
def splitScheme : List Char → Option (List Char × List Char)
  | [] => none
  | ':' :: '/' :: '/' :: rest => some ([], rest)
  | c :: rest => (splitScheme rest).map (fun p => (c :: p.1, p.2))

/-- Model of the Go standard library function `url.Parse`, restricted to the
URL fragment above.  It fails (returns `none`, modelling a non-nil error) on
invalid percent escapes, control characters, an empty or non-alphabetic
scheme, or a space in the host — all cases in which `url.Parse` returns an
error.  A string without a scheme separator parses as a relative URL, as in
Go. -/
def parseGoURL (s : String) : Option URL :=
  let cs := s.data
  if !validEscapes cs || cs.any (fun c => c.val < 32) then none
  else
    match splitScheme cs with
    | none => some ⟨"", "", s⟩
    | some (sch, rest) =>
      if sch = [] || !sch.all Char.isAlpha then none
      else
        let host := rest.takeWhile (fun c => c ≠ '/')
        let path := rest.dropWhile (fun c => c ≠ '/')
        if host.any (fun c => c = ' ') then none
        else some ⟨String.mk sch, String.mk host, String.mk path⟩

/-- Does the string begin with a slash? -/
def startsWithSlash (s : String) : Bool :=
  match s.data with
  | [] => false
  | c :: _ => c = '/'

/-- The base path with its final segment removed (everything after the last
slash), used by relative-reference merging. -/
def dropLastSegment (p : String) : String :=
  String.mk ((p.data.reverse.dropWhile (fun c => c ≠ '/')).reverse)

/-- Model of `(*url.URL).Parse base ref` (reference resolution per RFC 3986)
on the fragment used by the library.  A reference beginning with a slash is an
absolute-path reference: it keeps the base scheme and host and replaces the
whole base path.  Otherwise the reference is merged onto the base path with
the final segment removed. -/
def resolveRef (base : URL) (ref : String) : URL :=
  if startsWithSlash ref then { scheme := base.scheme, host := base.host, path := ref }
  else { scheme := base.scheme, host := base.host, path := dropLastSegment base.path ++ ref }

/-! ### HTTP headers (`net/http.Header` / `net/textproto`) -/

/-- Headers are association lists from canonical MIME keys to value lists. -/
abbrev Header := List (String × List String)

def canonChars : Bool → List Char → List Char
  | _, [] => []
  | up, c :: rest =>
    if c = '-' then c :: canonChars true rest
    else (if up then c.toUpper else c.toLower) :: canonChars false rest

/-- Model of `textproto.CanonicalMIMEHeaderKey`, restricted to keys made of
alphanumerics and hyphens (other keys are returned unchanged, as Go does for
keys containing invalid token characters). -/
def canonicalKey (s : String) : String :=
  if s.data = [] || !(s.data.all fun c => c.isAlphanum || c = '-') then s
  else String.mk (canonChars true s.data)

def setEntry : Header → String → List String → Header
  | [], k, vs => [(k, vs)]
  | (k2, vs2) :: rest, k, vs =>
    if k2 = k then (k, vs) :: rest else (k2, vs2) :: setEntry rest k vs

def addEntry : Header → String → String → Header
  | [], k, v => [(k, [v])]
  | (k2, vs2) :: rest, k, v =>
    if k2 = k then (k, vs2 ++ [v]) :: rest else (k2, vs2) :: addEntry rest k v

def getEntry : Header → String → Option (List String)
  | [], _ => none
  | (k2, vs2) :: rest, k => if k2 = k then some vs2 else getEntry rest k

/-- `Header.Set`: replace all values of the (canonicalised) key. -/
def headerSet (h : Header) (k v : String) : Header :=
  setEntry h (canonicalKey k) [v]

/-- `Header.Add`: append a value under the (canonicalised) key. -/
def headerAdd (h : Header) (k v : String) : Header :=
  addEntry h (canonicalKey k) v

/-- All values stored under a header key (`none` when the key is absent). -/
def headerGet (h : Header) (k : String) : Option (List String) :=
  getEntry h (canonicalKey k)

/-! ### Library constants (postal.go lines 13-21) -/

def libraryVersion : String := "0.1.0"

def userAgent : String := "gopostal/" ++ libraryVersion

def mediaType : String := "application/json"

def statusSuccess : String := "success"

def statusParameterError : String := "parameter-error"

def statusError : String := "error"

/-- `http.StatusNoContent`. -/
def statusNoContent : Nat := 204

/-! ### Client (postal.go lines 23-46, 80-112) -/

/-- The `Client` struct.  `BaseURL` is an `Option` because the Go field is a
pointer that `NewClient` leaves nil when `url.Parse` fails.  The HTTP client,
the services and the completion callback carry no data relevant to the
embedded behaviour and are omitted. -/
structure Client where
  BaseURL : Option URL
  ApiKey : String
  headers : List (String × String) := []
  UserAgent : String := userAgent

/-- `NewClient` (postal.go line 80).  Note the return type: there is no error
result; the `url.Parse` error is discarded and a failed parse leaves
`BaseURL` nil. -/
def newClient (baseURL : String) (akey : String) : Client :=
  { BaseURL := parseGoURL baseURL, ApiKey := akey, headers := [], UserAgent := userAgent }

/-- `SetBaseURL` (postal.go line 104): again the parse error is discarded. -/
def setBaseURL (c : Client) (bu : String) : Client :=
  { c with BaseURL := parseGoURL bu }

/-- `SetApiKey` (postal.go line 110). -/
def setApiKey (c : Client) (akey : String) : Client :=
  { c with ApiKey := akey }

/-! ### Request construction (postal.go lines 114-155) -/

/-- Outcome of running a piece of Go code: a normal return value, or a
runtime panic (`crash`) that propagates to the top. -/
inductive Outcome (α : Type) where
  | ok (val : α)
  | crash (msg : String)

/-- The body attached to an outgoing request: `none` models a nil body
reader (GET/HEAD/OPTIONS), `emptyBuffer` the empty buffer attached when the
body argument is nil on other methods, and `json j` a JSON-encoded body. -/
inductive ReqBody where
  | none
  | emptyBuffer
  | json (j : Json)

structure HttpRequest where
  method : String
  url : URL
  headers : Header
  body : ReqBody

/-- The method switch in `NewRequest`: GET, HEAD and OPTIONS get no body. -/
def isBodylessMethod (method : String) : Bool :=
  method = "GET" || method = "HEAD" || method = "OPTIONS"

/-- The request body produced by the method switch of `NewRequest`. -/
def reqBodyFor (method : String) (body : Option Json) : ReqBody :=
  if isBodylessMethod method then ReqBody.none
  else
    match body with
    | Option.none => ReqBody.emptyBuffer
    | Option.some j => ReqBody.json j

/-- The headers set inside the method switch of `NewRequest`: the default
branch sets `Content-Type: application/json` (whether or not the body
argument was nil). -/
def baseHeadersFor (method : String) : Header :=
  if isBodylessMethod method then [] else headerSet [] "Content-Type" mediaType

/-- `NewRequest` (postal.go line 117).  Resolves the path against `BaseURL`
(a nil `BaseURL` makes the method receiver call panic with a nil pointer
dereference), builds the body per the method switch, applies the configured
extra headers, then forces the API-key and user-agent headers last.
JSON-encoding a `Json` value never fails, so the encoder error branch is
unreachable in this model. -/
def newRequest (c : Client) (method : String) (urlStr : String) (body : Option Json) :
    Outcome HttpRequest :=
  match c.BaseURL with
  | Option.none => Outcome.crash "nil pointer dereference"
  | Option.some bu =>
    Outcome.ok
      { method := method
        url := resolveRef bu urlStr
        headers :=
          headerSet
            (headerSet
              (c.headers.foldl (fun h kv => headerAdd h kv.1 kv.2) (baseHeadersFor method))
              "X-Server-API-Key" c.ApiKey)
            "User-Agent" c.UserAgent
        body := reqBodyFor method body }

/-! ### Response bodies and envelope decoding (postal.go lines 51-76, 222-238) -/

/-- The fully-read bytes of an HTTP response body: empty, bytes that are not
valid JSON (carried abstractly with their text), or bytes whose JSON value is
`j`. -/
inductive Body where
  | empty
  | invalid (raw : String)
  | parsed (j : Json)

/-- The incoming `http.Response` fragment the library inspects: the request
that produced it (Go stores it in `Response.Request`), the HTTP status code
and the body. -/
structure HttpResponse where
  request : HttpRequest
  statusCode : Nat
  body : Body

/-- The `ErrorResponse` struct (postal.go line 70): the causing response plus
the dynamically-typed `Data` field. -/
structure ErrorResponse where
  resp : HttpResponse
  data : Json

/-- The decoded generic response envelope, i.e. the JSON-visible fields of
the `Response` struct (postal.go line 52): `status`, `time`, `flags`, `data`.
Missing JSON fields leave the Go zero values, modelled by the defaults. -/
structure ResponseEnvelope where
  status : String := ""
  time : ℚ := 0
  flags : Option (List (String × Json)) := none
  data : Json := Json.null

/-- Decoding a JSON value into a Go `string` field: absent and null leave the
zero value, any non-string value is an unmarshal error. -/
def decodeStringField (fields : List (String × Json)) (name : String) : Except String String :=
  match lookupField fields name with
  | Option.none => Except.ok ""
  | Option.some Json.null => Except.ok ""
  | Option.some (Json.str s) => Except.ok s
  | Option.some _ => Except.error ("cannot unmarshal into string field " ++ name)

/-- Decoding a JSON value into a Go numeric field. -/
def decodeNumField (fields : List (String × Json)) (name : String) : Except String ℚ :=
  match lookupField fields name with
  | Option.none => Except.ok 0
  | Option.some Json.null => Except.ok 0
  | Option.some (Json.num q) => Except.ok q
  | Option.some _ => Except.error ("cannot unmarshal into number field " ++ name)

/-- Decoding a JSON value into a Go `map[string]interface` field. -/
def decodeMapField (fields : List (String × Json)) (name : String) :
    Except String (Option (List (String × Json))) :=
  match lookupField fields name with
  | Option.none => Except.ok Option.none
  | Option.some Json.null => Except.ok Option.none
  | Option.some (Json.obj fs) => Except.ok (Option.some fs)
  | Option.some _ => Except.error ("cannot unmarshal into map field " ++ name)

/-- `json.Unmarshal(data, &response)` for the envelope struct: the top-level
value must be an object (or null, which leaves the zero value); unknown keys
are ignored; each tagged field is decoded by type. -/
def decodeEnvelope : Json → Except String ResponseEnvelope
  | Json.null => Except.ok {}
  | Json.obj fields => do
    let status ← decodeStringField fields "status"
    let time ← decodeNumField fields "time"
    let flags ← decodeMapField fields "flags"
    Except.ok { status := status, time := time, flags := flags,
                data := (lookupField fields "data").getD Json.null }
  | _ => Except.error "cannot unmarshal JSON value into Response"

/-- Result of `CheckResponse`: either the raw body bytes handed back for the
caller to re-decode, or an `ErrorResponse`. -/
inductive CheckResult where
  | body (b : Body)
  | errorResp (e : ErrorResponse)

/-- `CheckResponse` (postal.go line 222).  An empty body passes through as
success.  A body that fails to decode as the envelope yields an
`ErrorResponse` whose `Data` is the decode-error text.  A decoded envelope
with non-success status yields an `ErrorResponse` whose `Data` is
`data.message` — via the unchecked type assertion
`response.Data.(map[string]interface)`, which panics when `data` is not a
JSON object (including when it is absent or null). -/
def checkResponse (r : HttpResponse) : Outcome CheckResult :=
  match r.body with
  | Body.empty => Outcome.ok (CheckResult.body Body.empty)
  | Body.invalid raw =>
    Outcome.ok (CheckResult.errorResp { resp := r, data := Json.str ("invalid JSON: " ++ raw) })
  | Body.parsed j =>
    match decodeEnvelope j with
    | Except.error msg => Outcome.ok (CheckResult.errorResp { resp := r, data := Json.str msg })
    | Except.ok env =>
      if env.status = statusSuccess then Outcome.ok (CheckResult.body (Body.parsed j))
      else
        match env.data with
        | Json.obj fields =>
          Outcome.ok (CheckResult.errorResp
            { resp := r, data := (lookupField fields "message").getD Json.null })
        | _ => Outcome.crash "interface conversion"

/-- The error value returned by `Do`: either the `ErrorResponse` produced by
classification, or the error of the JSON decode into the caller's target. -/
inductive DoError where
  | api (e : ErrorResponse)
  | decode (msg : String)

/-- `Do` (postal.go line 159), after the transport has already produced the
response `r`.  The decode target is `some dec` when a non-nil `v` was
supplied and `none` otherwise.  The decode-error branch returns a nil
response pointer (`return nil, err` at line 195), all other return paths
return the wrapped response. -/
def doCall {α : Type} (r : HttpResponse) (target : Option (Body → Except String α)) (init : α) :
    Outcome (Option HttpResponse × α × Option DoError) :=
  match checkResponse r with
  | Outcome.crash m => Outcome.crash m
  | Outcome.ok (CheckResult.errorResp e) =>
    Outcome.ok (Option.some r, init, Option.some (DoError.api e))
  | Outcome.ok (CheckResult.body b) =>
    match target with
    | Option.none => Outcome.ok (Option.some r, init, Option.none)
    | Option.some dec =>
      if r.statusCode = statusNoContent then Outcome.ok (Option.some r, init, Option.none)
      else
        match dec b with
        | Except.error m => Outcome.ok (Option.none, init, Option.some (DoError.decode m))
        | Except.ok v => Outcome.ok (Option.some r, v, Option.none)

/-! ### Field decoding helpers shared by the typed result decoders -/

/-- A Go `interface` field simply receives the JSON value (absent stays the
nil interface, modelled `Json.null`). -/
def decodeJsonField (fields : List (String × Json)) (name : String) : Json :=
  (lookupField fields name).getD Json.null

/-- Decoding a JSON value into a Go `bool` field. -/
def decodeBoolField (fields : List (String × Json)) (name : String) : Except String Bool :=
  match lookupField fields name with
  | Option.none => Except.ok false
  | Option.some Json.null => Except.ok false
  | Option.some (Json.bool b) => Except.ok b
  | Option.some _ => Except.error ("cannot unmarshal into bool field " ++ name)

/-- Decoding a JSON value into a Go `int` field: `encoding/json` rejects
numbers with a fractional part. -/
def decodeIntField (fields : List (String × Json)) (name : String) : Except String Int :=
  match lookupField fields name with
  | Option.none => Except.ok 0
  | Option.some Json.null => Except.ok 0
  | Option.some (Json.num q) =>
    if q.den = 1 then Except.ok q.num
    else Except.error ("cannot unmarshal number into int field " ++ name)
  | Option.some _ => Except.error ("cannot unmarshal into int field " ++ name)

/-- Decoding a JSON value into a Go `[]interface` field. -/
def decodeJsonArrField (fields : List (String × Json)) (name : String) :
    Except String (List Json) :=
  match lookupField fields name with
  | Option.none => Except.ok []
  | Option.some Json.null => Except.ok []
  | Option.some (Json.arr xs) => Except.ok xs
  | Option.some _ => Except.error ("cannot unmarshal into slice field " ++ name)

/-- Decoding a JSON value into a nested Go struct field: absent and null
leave the zero value `zero`, an object is decoded with `dec`, anything else
errors. -/
def decodeStructField {σ : Type} (zero : σ) (dec : List (String × Json) → Except String σ)
    (fields : List (String × Json)) (name : String) : Except String σ :=
  match lookupField fields name with
  | Option.none => Except.ok zero
  | Option.some Json.null => Except.ok zero
  | Option.some (Json.obj fs) => dec fs
  | Option.some _ => Except.error ("cannot unmarshal into struct field " ++ name)

/-! ### Send façade data (the send-service source file) -/

def sendBasePath : String := "/api/v1/send"

def sendPath : String := sendBasePath ++ "/message"

def sendRawPath : String := sendBasePath ++ "/raw"

/-- `SendRequest`.  The dynamically-typed `Attachments` value is a `Json`,
the `Headers` map an association list. -/
structure SendRequest where
  To : List String := []
  CC : List String := []
  BCC : List String := []
  From : String := ""
  Sender : String := ""
  Subject : String := ""
  Tag : String := ""
  ReplyTo : String := ""
  PlainBody : String := ""
  HTMLBody : String := ""
  Attachments : Json := Json.null
  Headers : List (String × Json) := []
  Bounce : Bool := false

/-- JSON marshalling of `SendRequest`, with the exact field tags of the
source. -/
def encodeSendRequest (r : SendRequest) : Json :=
  Json.obj
    [("to", Json.arr (r.To.map Json.str)),
     ("cc", Json.arr (r.CC.map Json.str)),
     ("bcc", Json.arr (r.BCC.map Json.str)),
     ("from", Json.str r.From),
     ("sender", Json.str r.Sender),
     ("subject", Json.str r.Subject),
     ("tag", Json.str r.Tag),
     ("reply_to", Json.str r.ReplyTo),
     ("plain_body", Json.str r.PlainBody),
     ("html_body", Json.str r.HTMLBody),
     ("attachments", r.Attachments),
     ("headers", Json.obj r.Headers),
     ("bounce", Json.bool r.Bounce)]

/-- `SendRAWRequest`. -/
structure SendRAWRequest where
  MailFrom : String := ""
  RcptTo : List String := []
  Data : String := ""
  Bounce : Bool := false

def encodeSendRAWRequest (r : SendRAWRequest) : Json :=
  Json.obj
    [("mail_from", Json.str r.MailFrom),
     ("rcpt_to", Json.arr (r.RcptTo.map Json.str)),
     ("data", Json.str r.Data),
     ("bounce", Json.bool r.Bounce)]

/-- One entry of the `Messages` map of a `SendResponse`. -/
structure SendMessageInfo where
  ID : Int := 0
  Token : String := ""
deriving DecidableEq

/-- `SendResponse`: the acknowledgement of a send operation.  The Go
`map[string]struct` is modelled as an association list in document order. -/
structure SendResponse where
  MessageID : String := ""
  Messages : List (String × SendMessageInfo) := []
deriving DecidableEq

def decodeSendMessageInfo : Json → Except String SendMessageInfo
  | Json.null => Except.ok {}
  | Json.obj fs => do
    let id ← decodeIntField fs "id"
    let token ← decodeStringField fs "token"
    Except.ok { ID := id, Token := token }
  | _ => Except.error "cannot unmarshal into SendMessageInfo"

/-- Decoding the `messages` map field of a `SendResponse`. -/
def decodeMessagesMap (fields : List (String × Json)) :
    Except String (List (String × SendMessageInfo)) :=
  match lookupField fields "messages" with
  | Option.none => Except.ok []
  | Option.some Json.null => Except.ok []
  | Option.some (Json.obj fs) =>
    fs.mapM (fun kv => (decodeSendMessageInfo kv.2).map (fun v => (kv.1, v)))
  | Option.some _ => Except.error "cannot unmarshal into messages map"

def decodeSendResponse : Json → Except String SendResponse
  | Json.null => Except.ok {}
  | Json.obj fs => do
    let mid ← decodeStringField fs "message_id"
    let msgs ← decodeMessagesMap fs
    Except.ok { MessageID := mid, Messages := msgs }
  | _ => Except.error "cannot unmarshal into SendResponse"

/-- `sendRoot`: the envelope unwrap target of the send operations; `Hash` is
a pointer, nil when the `data` field is absent or null. -/
structure sendRoot where
  Hash : Option SendResponse

def decodeSendRoot : Json → Except String sendRoot
  | Json.null => Except.ok ⟨Option.none⟩
  | Json.obj fs =>
    match lookupField fs "data" with
    | Option.none => Except.ok ⟨Option.none⟩
    | Option.some Json.null => Except.ok ⟨Option.none⟩
    | Option.some j => (decodeSendResponse j).map (fun v => ⟨Option.some v⟩)
  | _ => Except.error "cannot unmarshal into sendRoot"

/-! ### Messages façade data (postal.go lines 246-340) -/

def messagesBasePath : String := "/api/v1/messages"

def detailsPath : String := messagesBasePath ++ "/message"

def deliveriesPath : String := messagesBasePath ++ "/deliveries"

structure GetMessageRequest where
  ID : Int := 0
  Expansions : Json := Json.null

def encodeGetMessageRequest (r : GetMessageRequest) : Json :=
  Json.obj [("id", Json.num (r.ID : ℚ)), ("_expansions", r.Expansions)]

structure GetDeliveriesRequest where
  ID : Int := 0

def encodeGetDeliveriesRequest (r : GetDeliveriesRequest) : Json :=
  Json.obj [("id", Json.num (r.ID : ℚ))]

/-- The `Status` sub-record of `MessageDetails`. -/
structure MessageStatusInfo where
  Status : String := ""
  LastDeliveryAttempt : ℚ := 0
  Held : Bool := false
  HoldExpiry : Json := Json.null

/-- The `Details` sub-record of `MessageDetails`. -/
structure MessageDetailsInfo where
  RcptTo : String := ""
  MailFrom : String := ""
  Subject : String := ""
  MessageID : String := ""
  Timestamp : ℚ := 0
  Direction : String := ""
  Size : Json := Json.null
  Bounce : Bool := false
  BounceForID : Int := 0
  Tag : Json := Json.null
  ReceivedWithSsl : Json := Json.null

/-- The `Inspection` sub-record of `MessageDetails`. -/
structure MessageInspectionInfo where
  Inspected : Bool := false
  Spam : Bool := false
  SpamScore : ℚ := 0
  Threat : Bool := false
  ThreatDetails : Json := Json.null

/-- The `ActivityEntries` sub-record of `MessageDetails`. -/
structure ActivityEntriesInfo where
  Loads : List Json := []
  Clicks : List Json := []

/-- `MessageDetails`.  The empty `Headers struct` sub-record of the source
carries no data; decoding merely validates its JSON shape. -/
structure MessageDetails where
  ID : Int := 0
  Token : String := ""
  Status : MessageStatusInfo := {}
  Details : MessageDetailsInfo := {}
  Inspection : MessageInspectionInfo := {}
  PlainBody : Json := Json.null
  HTMLBody : Json := Json.null
  Attachments : List Json := []
  RawMessage : String := ""
  ActivityEntries : ActivityEntriesInfo := {}

def decodeMessageStatusInfo (fs : List (String × Json)) : Except String MessageStatusInfo := do
  let status ← decodeStringField fs "status"
  let lda ← decodeNumField fs "last_delivery_attempt"
  let held ← decodeBoolField fs "held"
  Except.ok { Status := status, LastDeliveryAttempt := lda, Held := held,
              HoldExpiry := decodeJsonField fs "hold_expiry" }

def decodeMessageDetailsInfo (fs : List (String × Json)) : Except String MessageDetailsInfo := do
  let rcptTo ← decodeStringField fs "rcpt_to"
  let mailFrom ← decodeStringField fs "mail_from"
  let subject ← decodeStringField fs "subject"
  let mid ← decodeStringField fs "message_id"
  let ts ← decodeNumField fs "timestamp"
  let dir ← decodeStringField fs "direction"
  let bounce ← decodeBoolField fs "bounce"
  let bounceForID ← decodeIntField fs "bounce_for_id"
  Except.ok { RcptTo := rcptTo, MailFrom := mailFrom, Subject := subject, MessageID := mid,
              Timestamp := ts, Direction := dir, Size := decodeJsonField fs "size",
              Bounce := bounce, BounceForID := bounceForID, Tag := decodeJsonField fs "tag",
              ReceivedWithSsl := decodeJsonField fs "received_with_ssl" }

def decodeMessageInspectionInfo (fs : List (String × Json)) :
    Except String MessageInspectionInfo := do
  let inspected ← decodeBoolField fs "inspected"
  let spam ← decodeBoolField fs "spam"
  let score ← decodeNumField fs "spam_score"
  let threat ← decodeBoolField fs "threat"
  Except.ok { Inspected := inspected, Spam := spam, SpamScore := score, Threat := threat,
              ThreatDetails := decodeJsonField fs "threat_details" }

def decodeActivityEntriesInfo (fs : List (String × Json)) :
    Except String ActivityEntriesInfo := do
  let loads ← decodeJsonArrField fs "loads"
  let clicks ← decodeJsonArrField fs "clicks"
  Except.ok { Loads := loads, Clicks := clicks }

/-- Validation of the empty `Headers struct` sub-record: any object (or an
absent or null field) is fine, anything else is an unmarshal error. -/
def checkEmptyStructField (fields : List (String × Json)) (name : String) :
    Except String Unit :=
  match lookupField fields name with
  | Option.none => Except.ok ()
  | Option.some Json.null => Except.ok ()
  | Option.some (Json.obj _) => Except.ok ()
  | Option.some _ => Except.error ("cannot unmarshal into struct field " ++ name)

def decodeMessageDetails : Json → Except String MessageDetails
  | Json.null => Except.ok {}
  | Json.obj fs => do
    let id ← decodeIntField fs "id"
    let token ← decodeStringField fs "token"
    let status ← decodeStructField {} decodeMessageStatusInfo fs "status"
    let details ← decodeStructField {} decodeMessageDetailsInfo fs "details"
    let inspection ← decodeStructField {} decodeMessageInspectionInfo fs "inspection"
    let attachments ← decodeJsonArrField fs "attachments"
    let _ ← checkEmptyStructField fs "headers"
    let rawMessage ← decodeStringField fs "raw_message"
    let activity ← decodeStructField {} decodeActivityEntriesInfo fs "activity_entries"
    Except.ok { ID := id, Token := token, Status := status, Details := details,
                Inspection := inspection, PlainBody := decodeJsonField fs "plain_body",
                HTMLBody := decodeJsonField fs "html_body", Attachments := attachments,
                RawMessage := rawMessage, ActivityEntries := activity }
  | _ => Except.error "cannot unmarshal into MessageDetails"

/-- `messageRoot`: the envelope unwrap target of `GetMessage`. -/
structure messageRoot where
  Message : Option MessageDetails

def decodeMessageRoot : Json → Except String messageRoot
  | Json.null => Except.ok ⟨Option.none⟩
  | Json.obj fs =>
    match lookupField fs "data" with
    | Option.none => Except.ok ⟨Option.none⟩
    | Option.some Json.null => Except.ok ⟨Option.none⟩
    | Option.some j => (decodeMessageDetails j).map (fun v => ⟨Option.some v⟩)
  | _ => Except.error "cannot unmarshal into messageRoot"

/-- `MessageDeliveries`: one delivery-attempt record. -/
structure MessageDeliveries where
  ID : Int := 0
  Status : String := ""
  Details : String := ""
  Output : String := ""
  SentWithSsl : Bool := false
  LogID : String := ""
  Time : ℚ := 0
  Timestamp : ℚ := 0
deriving DecidableEq

def decodeMessageDelivery : Json → Except String MessageDeliveries
  | Json.null => Except.ok {}
  | Json.obj fs => do
    let id ← decodeIntField fs "id"
    let status ← decodeStringField fs "status"
    let details ← decodeStringField fs "details"
    let output ← decodeStringField fs "output"
    let ssl ← decodeBoolField fs "sent_with_ssl"
    let logID ← decodeStringField fs "log_id"
    let time ← decodeNumField fs "time"
    let ts ← decodeNumField fs "timestamp"
    Except.ok { ID := id, Status := status, Details := details, Output := output,
                SentWithSsl := ssl, LogID := logID, Time := time, Timestamp := ts }
  | _ => Except.error "cannot unmarshal into MessageDeliveries"

/-- `deliveriesRoot`: the envelope unwrap target of `GetDeliveries`. -/
structure deliveriesRoot where
  Deliveries : Option (List MessageDeliveries)

def decodeDeliveriesRoot : Json → Except String deliveriesRoot
  | Json.null => Except.ok ⟨Option.none⟩
  | Json.obj fs =>
    match lookupField fs "data" with
    | Option.none => Except.ok ⟨Option.none⟩
    | Option.some Json.null => Except.ok ⟨Option.none⟩
    | Option.some (Json.arr xs) =>
      (xs.mapM decodeMessageDelivery).map (fun l => ⟨Option.some l⟩)
    | Option.some _ => Except.error "cannot unmarshal into deliveries slice"
  | _ => Except.error "cannot unmarshal into deliveriesRoot"

/-! ### Façade calls -/

/-- What the injected HTTP transport hands back for a dispatched request:
status code and body (a transport error would abort earlier and is not
relevant to any claim below). -/
structure ServerReply where
  statusCode : Nat
  body : Body

/-- Lifting a JSON root decoder to the raw body bytes, as
`json.NewDecoder(buf).Decode(v)` behaves in `Do`: an empty buffer yields the
EOF error, non-JSON bytes a syntax error. -/
def rootDecoder {ρ : Type} (dec : Json → Except String ρ) : Body → Except String ρ
  | Body.empty => Except.error "EOF"
  | Body.invalid raw => Except.error ("invalid JSON: " ++ raw)
  | Body.parsed j => dec j

/-- The shared shape of all four façade operations: build the request with
`NewRequest`, form the transport's response, run `Do` with the root decode
target, and on success project the root's `data` pointer. -/
def facadeCall {ρ β : Type} (c : Client) (method : String) (path : String) (reqJson : Json)
    (dec : Json → Except String ρ) (init : ρ) (proj : ρ → Option β) (reply : ServerReply) :
    Outcome (Option β × Option HttpResponse × Option DoError) :=
  match newRequest c method path (Option.some reqJson) with
  | Outcome.crash m => Outcome.crash m
  | Outcome.ok httpReq =>
    match doCall { request := httpReq, statusCode := reply.statusCode, body := reply.body }
        (Option.some (rootDecoder dec)) init with
    | Outcome.crash m => Outcome.crash m
    | Outcome.ok (resp, _, Option.some e) => Outcome.ok (Option.none, resp, Option.some e)
    | Outcome.ok (resp, root, Option.none) => Outcome.ok (proj root, resp, Option.none)

/-- `Send` (send-service file line 85). -/
def send (c : Client) (sendRequest : SendRequest) (reply : ServerReply) :
    Outcome (Option SendResponse × Option HttpResponse × Option DoError) :=
  facadeCall c "POST" sendPath (encodeSendRequest sendRequest) decodeSendRoot
    ⟨Option.none⟩ sendRoot.Hash reply

/-- `SendRAW` (send-service file line 99). -/
def sendRAW (c : Client) (sendRAWRequest : SendRAWRequest) (reply : ServerReply) :
    Outcome (Option SendResponse × Option HttpResponse × Option DoError) :=
  facadeCall c "POST" sendRawPath (encodeSendRAWRequest sendRAWRequest) decodeSendRoot
    ⟨Option.none⟩ sendRoot.Hash reply

/-- `GetMessage` (postal.go line 343). -/
def getMessage (c : Client) (getRequest : GetMessageRequest) (reply : ServerReply) :
    Outcome (Option MessageDetails × Option HttpResponse × Option DoError) :=
  facadeCall c "POST" detailsPath (encodeGetMessageRequest getRequest) decodeMessageRoot
    ⟨Option.none⟩ messageRoot.Message reply

/-- `GetDeliveries` (postal.go line 357). -/
def getDeliveries (c : Client) (getRequest : GetDeliveriesRequest) (reply : ServerReply) :
    Outcome (Option (List MessageDeliveries) × Option HttpResponse × Option DoError) :=
  facadeCall c "POST" deliveriesPath (encodeGetDeliveriesRequest getRequest)
    decodeDeliveriesRoot ⟨Option.none⟩ deliveriesRoot.Deliveries reply

/-! ### Projections used to state the claims -/

/-- The typed result component of a façade call. -/
def resultOf {β : Type} : Outcome (Option β × Option HttpResponse × Option DoError) → Option β
  | Outcome.ok (v, _, _) => v
  | Outcome.crash _ => Option.none

/-- The response component of a façade call. -/
def respOf {β : Type} :
    Outcome (Option β × Option HttpResponse × Option DoError) → Option HttpResponse
  | Outcome.ok (_, r, _) => r
  | Outcome.crash _ => Option.none

/-- The error component of a façade call. -/
def errOf {β : Type} :
    Outcome (Option β × Option HttpResponse × Option DoError) → Option DoError
  | Outcome.ok (_, _, e) => e
  | Outcome.crash _ => Option.none

/-- The URL of a built request. -/
def requestURLOf : Outcome HttpRequest → Option URL
  | Outcome.ok r => Option.some r.url
  | Outcome.crash _ => Option.none

/-- The headers of a built request. -/
def requestHeadersOf : Outcome HttpRequest → Header
  | Outcome.ok r => r.headers
  | Outcome.crash _ => []

/-- The body of a built request. -/
def requestBodyOf : Outcome HttpRequest → ReqBody
  | Outcome.ok r => r.body
  | Outcome.crash _ => ReqBody.none

/-- A façade call returned the `APIError`-style `ErrorResponse` carrying the
given message, built from a response whose request has the given method and
resolved URL and whose status code is the given one — and returned no typed
result. -/
def returnsApiError {β : Type} (out : Outcome (Option β × Option HttpResponse × Option DoError))
    (method : String) (u : URL) (code : Nat) (msg : Json) : Prop :=
  ∃ r : HttpResponse,
    out = Outcome.ok (none, some r, some (DoError.api ⟨r, msg⟩))
    ∧ r.request.method = method ∧ r.request.url = u ∧ r.statusCode = code

/-- Is the error of a `Do` call the decode-into-target error? -/
def isDecodeErr : Option DoError → Bool
  | some (DoError.decode _) => true
  | _ => false

/-- The response pointer returned by `Do` is nil exactly on the decode-error
exit; on every other exit it is the (non-nil) wrapped response. -/
def doRespSpec {α : Type} (r : HttpResponse) :
    Outcome (Option HttpResponse × α × Option DoError) → Prop
  | Outcome.crash _ => True
  | Outcome.ok (resp, _, err) => resp = if isDecodeErr err then none else some r

/-- The single delivery record of the documented `GetDeliveries` scenario. -/
def deliveriesScenarioItem : Json :=
  Json.obj [("id", Json.num 1), ("status", Json.str "Sent"), ("details", Json.str "..."),
            ("output", Json.str "250 OK"), ("sent_with_ssl", Json.bool true),
            ("log_id", Json.str "abc"), ("time", Json.num 0.12),
            ("timestamp", Json.num 1700000000)]

/-- The success envelope of the documented `GetDeliveries` scenario. -/
def deliveriesScenarioBody : Json :=
  Json.obj [("status", Json.str "success"), ("data", Json.arr [deliveriesScenarioItem])]

/-! ### Helper lemmas about headers and strings -/

theorem getEntry_setEntry_same (h : Header) (k : String) (vs : List String) :
    getEntry (setEntry h k vs) k = some vs := by
  induction h with
  | nil => simp [setEntry, getEntry]
  | cons kv rest ih =>
    obtain ⟨k2, vs2⟩ := kv
    by_cases hk : k2 = k
    · simp [setEntry, hk, getEntry]
    · simp [setEntry, hk, getEntry, ih]

theorem getEntry_setEntry_other (h : Header) {k k2 : String} (hne : k2 ≠ k) (vs : List String) :
    getEntry (setEntry h k2 vs) k = getEntry h k := by
  induction h with
  | nil => simp [setEntry, getEntry, hne]
  | cons kv rest ih =>
    obtain ⟨k3, vs3⟩ := kv
    by_cases hk : k3 = k2
    · subst hk
      simp [setEntry, getEntry, hne]
    · simp [setEntry, hk, getEntry, ih]

theorem getEntry_addEntry_other (h : Header) {k k2 : String} (hne : k2 ≠ k) (v : String) :
    getEntry (addEntry h k2 v) k = getEntry h k := by
  induction h with
  | nil => simp [addEntry, getEntry, hne]
  | cons kv rest ih =>
    obtain ⟨k3, vs3⟩ := kv
    by_cases hk : k3 = k2
    · subst hk
      simp [addEntry, getEntry, hne]
    · simp [addEntry, hk, getEntry, ih]

theorem getEntry_foldAdd_other (l : List (String × String)) (h : Header) {k : String}
    (hl : ∀ kv ∈ l, canonicalKey kv.1 ≠ k) :
    getEntry (l.foldl (fun acc kv => headerAdd acc kv.1 kv.2) h) k = getEntry h k := by
  induction l generalizing h with
  | nil => rfl
  | cons kv rest ih =>
    simp only [List.foldl]
    rw [ih _ (fun x hx => hl x (List.mem_cons_of_mem _ hx))]
    exact getEntry_addEntry_other h (hl kv (List.mem_cons_self _ _)) _

theorem headerGet_set_same (h : Header) (k v : String) :
    headerGet (headerSet h k v) k = some [v] :=
  getEntry_setEntry_same h (canonicalKey k) [v]

theorem headerGet_set_other (h : Header) {k k2 : String}
    (hne : canonicalKey k2 ≠ canonicalKey k) (v : String) :
    headerGet (headerSet h k2 v) k = getEntry h (canonicalKey k) :=
  getEntry_setEntry_other h hne [v]

theorem getEntry_headerSet_other (h : Header) {ck k2 : String} (hne : canonicalKey k2 ≠ ck)
    (v : String) :
    getEntry (headerSet h k2 v) ck = getEntry h ck :=
  getEntry_setEntry_other h hne [v]

theorem string_append_empty (s : String) : s ++ "" = s := by
  cases s with
  | mk data => exact congrArg String.mk (List.append_nil data)

/-! ### Helper lemmas about the façade pipeline -/

/-- A non-success envelope whose `data` is a JSON object makes any façade
call return the classification `ErrorResponse` with the extracted
`data.message`. -/
theorem facadeCall_classifyErr {ρ β : Type} (base : URL) (key : String)
    (hdrs : List (String × String)) (ua : String) (method path : String) (reqJson : Json)
    (dec : Json → Except String ρ) (init : ρ) (proj : ρ → Option β) (sc : Nat)
    (j : Json) (env : ResponseEnvelope) (fs : List (String × Json))
    (he : decodeEnvelope j = Except.ok env) (hs : env.status ≠ statusSuccess)
    (hd : env.data = Json.obj fs) :
    ∃ r : HttpResponse,
      facadeCall { BaseURL := some base, ApiKey := key, headers := hdrs, UserAgent := ua }
          method path reqJson dec init proj ⟨sc, Body.parsed j⟩
        = Outcome.ok (none, some r,
            some (DoError.api ⟨r, (lookupField fs "message").getD Json.null⟩))
      ∧ r.request.method = method ∧ r.request.url = resolveRef base path
      ∧ r.statusCode = sc ∧ r.body = Body.parsed j := by
  refine ⟨⟨⟨method, resolveRef base path,
      headerSet (headerSet (hdrs.foldl (fun acc kv => headerAdd acc kv.1 kv.2)
        (baseHeadersFor method)) "X-Server-API-Key" key) "User-Agent" ua,
      reqBodyFor method (some reqJson)⟩, sc, Body.parsed j⟩, ?_, rfl, rfl, rfl, rfl⟩
  simp only [facadeCall, newRequest, doCall, checkResponse, he]
  rw [if_neg hs]
  simp only [hd]

/-- A success envelope whose body decodes into the root makes any façade
call return the root projection with no error. -/
theorem facadeCall_success {ρ β : Type} (base : URL) (key : String)
    (hdrs : List (String × String)) (ua : String) (method path : String) (reqJson : Json)
    (dec : Json → Except String ρ) (init : ρ) (proj : ρ → Option β) (sc : Nat)
    (j : Json) (env : ResponseEnvelope) (root : ρ)
    (he : decodeEnvelope j = Except.ok env) (hs : env.status = statusSuccess)
    (hsc : sc ≠ statusNoContent) (hdec : dec j = Except.ok root) :
    ∃ r : HttpResponse,
      facadeCall { BaseURL := some base, ApiKey := key, headers := hdrs, UserAgent := ua }
          method path reqJson dec init proj ⟨sc, Body.parsed j⟩
        = Outcome.ok (proj root, some r, none)
      ∧ r.request.method = method ∧ r.request.url = resolveRef base path
      ∧ r.statusCode = sc ∧ r.body = Body.parsed j := by
  refine ⟨⟨⟨method, resolveRef base path,
      headerSet (headerSet (hdrs.foldl (fun acc kv => headerAdd acc kv.1 kv.2)
        (baseHeadersFor method)) "X-Server-API-Key" key) "User-Agent" ua,
      reqBodyFor method (some reqJson)⟩, sc, Body.parsed j⟩, ?_, rfl, rfl, rfl, rfl⟩
  simp [facadeCall, newRequest, doCall, checkResponse, he, hs, hsc, rootDecoder, hdec]

/-- An envelope object without a usable `data` field decodes into a
`sendRoot` with a nil `Hash` pointer. -/
theorem decodeSendRoot_noData (fs : List (String × Json))
    (hd : lookupField fs "data" = none ∨ lookupField fs "data" = some Json.null) :
    decodeSendRoot (Json.obj fs) = Except.ok ⟨none⟩ := by
  rcases hd with h | h <;> simp [decodeSendRoot, h]

/-- An envelope object without a usable `data` field decodes into a
`messageRoot` with a nil `Message` pointer. -/
theorem decodeMessageRoot_noData (fs : List (String × Json))
    (hd : lookupField fs "data" = none ∨ lookupField fs "data" = some Json.null) :
    decodeMessageRoot (Json.obj fs) = Except.ok ⟨none⟩ := by
  rcases hd with h | h <;> simp [decodeMessageRoot, h]

/-- An envelope object without a usable `data` field decodes into a
`deliveriesRoot` with a nil `Deliveries` pointer. -/
theorem decodeDeliveriesRoot_noData (fs : List (String × Json))
    (hd : lookupField fs "data" = none ∨ lookupField fs "data" = some Json.null) :
    decodeDeliveriesRoot (Json.obj fs) = Except.ok ⟨none⟩ := by
  rcases hd with h | h <;> simp [decodeDeliveriesRoot, h]

/-! ### Claim theorems -/

/-- C1: the claim says that a well-formed envelope with non-success status
whose `data` is not a JSON object (here the string "oops") makes response
classification return a classification error rather than crash.  The code
does the opposite: the unchecked type assertion in `CheckResponse` panics on
this input, as this evaluation of the embedded `checkResponse` shows. -/
theorem c1_string_data_crashes_classification :
    checkResponse
      { request := { method := "POST",
                     url := ⟨"https", "postal.example.com", "/api/v1/send/message"⟩,
                     headers := [], body := ReqBody.emptyBuffer },
        statusCode := 200,
        body := Body.parsed (Json.obj [("status", Json.str "error"), ("data", Json.str "oops")]) }
      = Outcome.crash "interface conversion" := rfl

/-- C2 counterexample: the claim quantifies over every response whose body is
a well-formed envelope with non-success status, but at this concrete input
(status "error", `data` null, a well-formed envelope) the `Send` operation
does not return an `APIError` at all — it crashes on the type assertion. -/
theorem c2_claim_counterexample :
    send (newClient "https://postal.example.com" "apikey") {}
      ⟨200, Body.parsed (Json.obj [("status", Json.str "error"), ("data", Json.null)])⟩
      = Outcome.crash "interface conversion" := rfl

/-- C2 (amended): for every response whose body decodes as a well-formed
envelope with status not equal to "success" and whose `data` field is a JSON
object, every operation call returns an `APIError` carrying the HTTP method,
the resolved URL, the HTTP status code and the `data.message` value, and no
typed result, regardless of the HTTP status code. -/
theorem c2_nonsuccess_object_data_yields_api_error (base : URL) (key ua : String)
    (hdrs : List (String × String)) (q1 : SendRequest) (q2 : SendRAWRequest)
    (q3 : GetMessageRequest) (q4 : GetDeliveriesRequest) (reply : ServerReply) (j : Json)
    (env : ResponseEnvelope) (fs : List (String × Json))
    (hb : reply.body = Body.parsed j) (he : decodeEnvelope j = Except.ok env)
    (hs : env.status ≠ statusSuccess) (hd : env.data = Json.obj fs) :
    returnsApiError (send ⟨some base, key, hdrs, ua⟩ q1 reply) "POST"
      (resolveRef base sendPath) reply.statusCode ((lookupField fs "message").getD Json.null)
    ∧ returnsApiError (sendRAW ⟨some base, key, hdrs, ua⟩ q2 reply) "POST"
      (resolveRef base sendRawPath) reply.statusCode ((lookupField fs "message").getD Json.null)
    ∧ returnsApiError (getMessage ⟨some base, key, hdrs, ua⟩ q3 reply) "POST"
      (resolveRef base detailsPath) reply.statusCode ((lookupField fs "message").getD Json.null)
    ∧ returnsApiError (getDeliveries ⟨some base, key, hdrs, ua⟩ q4 reply) "POST"
      (resolveRef base deliveriesPath) reply.statusCode
      ((lookupField fs "message").getD Json.null) := by
  obtain ⟨sc, rb⟩ := reply
  have hb2 : rb = Body.parsed j := hb
  subst hb2
  refine ⟨?_, ?_, ?_, ?_⟩
  · obtain ⟨r, h1, h2, h3, h4, _⟩ := facadeCall_classifyErr base key hdrs ua "POST" sendPath
      (encodeSendRequest q1) decodeSendRoot ⟨none⟩ sendRoot.Hash sc j env fs he hs hd
    exact ⟨r, h1, h2, h3, h4⟩
  · obtain ⟨r, h1, h2, h3, h4, _⟩ := facadeCall_classifyErr base key hdrs ua "POST" sendRawPath
      (encodeSendRAWRequest q2) decodeSendRoot ⟨none⟩ sendRoot.Hash sc j env fs he hs hd
    exact ⟨r, h1, h2, h3, h4⟩
  · obtain ⟨r, h1, h2, h3, h4, _⟩ := facadeCall_classifyErr base key hdrs ua "POST" detailsPath
      (encodeGetMessageRequest q3) decodeMessageRoot ⟨none⟩ messageRoot.Message sc j env fs
      he hs hd
    exact ⟨r, h1, h2, h3, h4⟩
  · obtain ⟨r, h1, h2, h3, h4, _⟩ := facadeCall_classifyErr base key hdrs ua "POST"
      deliveriesPath (encodeGetDeliveriesRequest q4) decodeDeliveriesRoot ⟨none⟩
      deliveriesRoot.Deliveries sc j env fs he hs hd
    exact ⟨r, h1, h2, h3, h4⟩

/-- C2 witness: the amended theorem applied to a concrete HTTP 422 response
with a parameter-error envelope carrying a message object. -/
theorem c2_nonsuccess_object_data_yields_api_error_witness :
    returnsApiError
      (send ⟨some ⟨"https", "postal.example.com", ""⟩, "apikey", [], userAgent⟩ {}
        ⟨422, Body.parsed (Json.obj [("status", Json.str "parameter-error"),
          ("data", Json.obj [("message", Json.str "Invalid parameter")])])⟩)
      "POST" (resolveRef ⟨"https", "postal.example.com", ""⟩ sendPath) 422
      (Json.str "Invalid parameter")
    ∧ returnsApiError
      (sendRAW ⟨some ⟨"https", "postal.example.com", ""⟩, "apikey", [], userAgent⟩ {}
        ⟨422, Body.parsed (Json.obj [("status", Json.str "parameter-error"),
          ("data", Json.obj [("message", Json.str "Invalid parameter")])])⟩)
      "POST" (resolveRef ⟨"https", "postal.example.com", ""⟩ sendRawPath) 422
      (Json.str "Invalid parameter")
    ∧ returnsApiError
      (getMessage ⟨some ⟨"https", "postal.example.com", ""⟩, "apikey", [], userAgent⟩ {}
        ⟨422, Body.parsed (Json.obj [("status", Json.str "parameter-error"),
          ("data", Json.obj [("message", Json.str "Invalid parameter")])])⟩)
      "POST" (resolveRef ⟨"https", "postal.example.com", ""⟩ detailsPath) 422
      (Json.str "Invalid parameter")
    ∧ returnsApiError
      (getDeliveries ⟨some ⟨"https", "postal.example.com", ""⟩, "apikey", [], userAgent⟩ {}
        ⟨422, Body.parsed (Json.obj [("status", Json.str "parameter-error"),
          ("data", Json.obj [("message", Json.str "Invalid parameter")])])⟩)
      "POST" (resolveRef ⟨"https", "postal.example.com", ""⟩ deliveriesPath) 422
      (Json.str "Invalid parameter") :=
  c2_nonsuccess_object_data_yields_api_error ⟨"https", "postal.example.com", ""⟩ "apikey"
    userAgent [] {} {} {} {}
    ⟨422, Body.parsed (Json.obj [("status", Json.str "parameter-error"),
      ("data", Json.obj [("message", Json.str "Invalid parameter")])])⟩
    (Json.obj [("status", Json.str "parameter-error"),
      ("data", Json.obj [("message", Json.str "Invalid parameter")])])
    ⟨"parameter-error", 0, none, Json.obj [("message", Json.str "Invalid parameter")]⟩
    [("message", Json.str "Invalid parameter")] rfl rfl (by decide) rfl

/-- C3: for every base URL, each operation path resolves to the base scheme
and host with exactly the documented path; adding a trailing slash to the
base path leaves every resolved URL unchanged; and on a base URL without a
path component the resolved URL string is exactly the base URL string
followed by the documented path. -/
theorem c3_resolved_request_urls (s h p key ua : String) (hdrs : List (String × String))
    (body : Option Json) :
    (requestURLOf (newRequest ⟨some ⟨s, h, p⟩, key, hdrs, ua⟩ "POST" sendPath body)
      = some ⟨s, h, "/api/v1/send/message"⟩)
    ∧ (requestURLOf (newRequest ⟨some ⟨s, h, p⟩, key, hdrs, ua⟩ "POST" sendRawPath body)
      = some ⟨s, h, "/api/v1/send/raw"⟩)
    ∧ (requestURLOf (newRequest ⟨some ⟨s, h, p⟩, key, hdrs, ua⟩ "POST" detailsPath body)
      = some ⟨s, h, "/api/v1/messages/message"⟩)
    ∧ (requestURLOf (newRequest ⟨some ⟨s, h, p⟩, key, hdrs, ua⟩ "POST" deliveriesPath body)
      = some ⟨s, h, "/api/v1/messages/deliveries"⟩)
    ∧ (requestURLOf (newRequest ⟨some ⟨s, h, p ++ "/"⟩, key, hdrs, ua⟩ "POST" sendPath body)
      = requestURLOf (newRequest ⟨some ⟨s, h, p⟩, key, hdrs, ua⟩ "POST" sendPath body))
    ∧ (requestURLOf (newRequest ⟨some ⟨s, h, p ++ "/"⟩, key, hdrs, ua⟩ "POST" sendRawPath body)
      = requestURLOf (newRequest ⟨some ⟨s, h, p⟩, key, hdrs, ua⟩ "POST" sendRawPath body))
    ∧ (requestURLOf (newRequest ⟨some ⟨s, h, p ++ "/"⟩, key, hdrs, ua⟩ "POST" detailsPath body)
      = requestURLOf (newRequest ⟨some ⟨s, h, p⟩, key, hdrs, ua⟩ "POST" detailsPath body))
    ∧ (requestURLOf (newRequest ⟨some ⟨s, h, p ++ "/"⟩, key, hdrs, ua⟩ "POST" deliveriesPath body)
      = requestURLOf (newRequest ⟨some ⟨s, h, p⟩, key, hdrs, ua⟩ "POST" deliveriesPath body))
    ∧ (∀ q : String, urlString ⟨s, h, q⟩ = urlString ⟨s, h, ""⟩ ++ q) :=
  ⟨rfl, rfl, rfl, rfl, rfl, rfl, rfl, rfl, fun q => by
    simp only [urlString]
    rw [string_append_empty]⟩

/-- C4: on every request built by `NewRequest` for a client whose user agent
is the library constant, the X-Server-API-Key header is exactly the client
API key and the User-Agent header is exactly the library user-agent string,
whatever extra headers the client is configured with (the two `Set` calls
come after the extra headers are added and override duplicates). -/
theorem c4_forced_auth_and_user_agent_headers (base : URL) (key : String)
    (hdrs : List (String × String)) (method urlStr : String) (body : Option Json) :
    headerGet (requestHeadersOf (newRequest
        { BaseURL := some base, ApiKey := key, headers := hdrs, UserAgent := userAgent }
        method urlStr body)) "X-Server-API-Key" = some [key]
    ∧ headerGet (requestHeadersOf (newRequest
        { BaseURL := some base, ApiKey := key, headers := hdrs, UserAgent := userAgent }
        method urlStr body)) "User-Agent" = some [userAgent] := by
  constructor
  · show headerGet (headerSet (headerSet _ "X-Server-API-Key" key) "User-Agent" userAgent)
      "X-Server-API-Key" = some [key]
    rw [headerGet_set_other _ (by decide)]
    exact getEntry_setEntry_same _ _ _
  · exact headerGet_set_same _ _ _

/-- C5: an empty response body is classified as success with the empty
payload, and a call with no decode target completes with the wrapped
response, the untouched target value and no error. -/
theorem c5_empty_body_is_success (α : Type) (init : α) (req : HttpRequest) (sc : Nat) :
    checkResponse ⟨req, sc, Body.empty⟩ = Outcome.ok (CheckResult.body Body.empty)
    ∧ doCall ⟨req, sc, Body.empty⟩ (none : Option (Body → Except String α)) init
      = Outcome.ok (some ⟨req, sc, Body.empty⟩, init, none) :=
  ⟨rfl, rfl⟩

/-- C6: GET, HEAD and OPTIONS requests carry no body; for any other method a
non-null body argument is JSON-attached as the request body; and (when the
configured extra headers do not themselves contain a Content-Type entry) the
Content-Type application/json header is present exactly when the method is
one that attaches a body. -/
theorem c6_body_attachment_and_content_type (base : URL) (key ua : String)
    (hdrs : List (String × String)) (method urlStr : String) (body : Option Json)
    (hct : ∀ kv ∈ hdrs, canonicalKey kv.1 ≠ "Content-Type") :
    (isBodylessMethod method = true →
      requestBodyOf (newRequest ⟨some base, key, hdrs, ua⟩ method urlStr body) = ReqBody.none)
    ∧ (isBodylessMethod method = false → ∀ j, body = some j →
      requestBodyOf (newRequest ⟨some base, key, hdrs, ua⟩ method urlStr body) = ReqBody.json j)
    ∧ (headerGet (requestHeadersOf (newRequest ⟨some base, key, hdrs, ua⟩ method urlStr body))
        "Content-Type" = some [mediaType] ↔ isBodylessMethod method = false) := by
  refine ⟨?_, ?_, ?_⟩
  · intro hm
    show reqBodyFor method body = ReqBody.none
    simp [reqBodyFor, hm]
  · intro hm j hj
    show reqBodyFor method body = ReqBody.json j
    simp [reqBodyFor, hm, hj]
  · show headerGet (headerSet (headerSet
        (hdrs.foldl (fun acc kv => headerAdd acc kv.1 kv.2) (baseHeadersFor method))
        "X-Server-API-Key" key) "User-Agent" ua) "Content-Type" = some [mediaType]
      ↔ isBodylessMethod method = false
    have hck : canonicalKey "Content-Type" = "Content-Type" := by decide
    rw [headerGet_set_other _ (by decide), hck, getEntry_headerSet_other _ (by decide),
      getEntry_foldAdd_other hdrs _ hct]
    cases hb : isBodylessMethod method with
    | true => simp [baseHeadersFor, hb, getEntry]
    | false =>
      simp only [baseHeadersFor, hb, if_false, Bool.false_eq_true]
      simp [headerSet, setEntry, getEntry, hck]

/-- C6 witness: the theorem applied to a POST request with a JSON body on a
client configured with one extra header. -/
theorem c6_body_attachment_and_content_type_witness :
    (isBodylessMethod "POST" = true →
      requestBodyOf (newRequest ⟨some ⟨"https", "h", ""⟩, "k", [("X-Custom", "1")], userAgent⟩
        "POST" sendPath (some (Json.str "x"))) = ReqBody.none)
    ∧ (isBodylessMethod "POST" = false → ∀ j, (some (Json.str "x") : Option Json) = some j →
      requestBodyOf (newRequest ⟨some ⟨"https", "h", ""⟩, "k", [("X-Custom", "1")], userAgent⟩
        "POST" sendPath (some (Json.str "x"))) = ReqBody.json j)
    ∧ (headerGet (requestHeadersOf (newRequest
        ⟨some ⟨"https", "h", ""⟩, "k", [("X-Custom", "1")], userAgent⟩
        "POST" sendPath (some (Json.str "x")))) "Content-Type" = some [mediaType]
      ↔ isBodylessMethod "POST" = false) :=
  c6_body_attachment_and_content_type ⟨"https", "h", ""⟩ "k" userAgent [("X-Custom", "1")]
    "POST" sendPath (some (Json.str "x")) (by decide)

/-- C7: every façade call on a response whose envelope has success status and
whose body decodes into a root with a present `data` projection returns that
populated typed result and no error; in particular `GetDeliveries` on the
documented one-element success payload yields exactly that one delivery
record with equal fields. -/
theorem c7_success_returns_typed_result :
    (∀ (ρ β : Type) (base : URL) (key ua : String) (hdrs : List (String × String))
      (method path : String) (reqJson : Json) (dec : Json → Except String ρ) (init : ρ)
      (proj : ρ → Option β) (reply : ServerReply) (j : Json) (env : ResponseEnvelope)
      (root : ρ) (l : β),
      reply.body = Body.parsed j → decodeEnvelope j = Except.ok env →
      env.status = statusSuccess → reply.statusCode ≠ statusNoContent →
      dec j = Except.ok root → proj root = some l →
      ∃ r : HttpResponse,
        facadeCall ⟨some base, key, hdrs, ua⟩ method path reqJson dec init proj reply
          = Outcome.ok (some l, some r, none))
    ∧ resultOf (getDeliveries (newClient "https://postal.example.com" "apikey") ⟨42⟩
        ⟨200, Body.parsed deliveriesScenarioBody⟩)
      = some [⟨1, "Sent", "...", "250 OK", true, "abc", 0.12, 1700000000⟩]
    ∧ errOf (getDeliveries (newClient "https://postal.example.com" "apikey") ⟨42⟩
        ⟨200, Body.parsed deliveriesScenarioBody⟩) = none := by
  refine ⟨?_, rfl, rfl⟩
  intro ρ β base key ua hdrs method path reqJson dec init proj reply j env root l
  obtain ⟨sc, rb⟩ := reply
  intro hb he hs hsc hdec hproj
  have hb2 : rb = Body.parsed j := hb
  subst hb2
  obtain ⟨r, h1, _, _, _, _⟩ :=
    facadeCall_success base key hdrs ua method path reqJson dec init proj sc j env root
      he hs hsc hdec
  refine ⟨r, ?_⟩
  rw [h1, hproj]

/-- C7 witness: the universal part of the theorem applied to the documented
`GetDeliveries` scenario payload. -/
theorem c7_success_returns_typed_result_witness :
    ∃ r : HttpResponse,
      facadeCall ⟨some ⟨"https", "postal.example.com", ""⟩, "apikey", [], userAgent⟩ "POST"
          deliveriesPath (encodeGetDeliveriesRequest ⟨42⟩) decodeDeliveriesRoot ⟨none⟩
          deliveriesRoot.Deliveries ⟨200, Body.parsed deliveriesScenarioBody⟩
        = Outcome.ok (some [⟨1, "Sent", "...", "250 OK", true, "abc", 0.12, 1700000000⟩],
            some r, none) :=
  c7_success_returns_typed_result.1 deliveriesRoot (List MessageDeliveries)
    ⟨"https", "postal.example.com", ""⟩ "apikey" userAgent [] "POST" deliveriesPath
    (encodeGetDeliveriesRequest ⟨42⟩) decodeDeliveriesRoot ⟨none⟩ deliveriesRoot.Deliveries
    ⟨200, Body.parsed deliveriesScenarioBody⟩ deliveriesScenarioBody
    ⟨"success", 0, none, Json.arr [deliveriesScenarioItem]⟩
    ⟨some [⟨1, "Sent", "...", "250 OK", true, "abc", 0.12, 1700000000⟩]⟩
    [⟨1, "Sent", "...", "250 OK", true, "abc", 0.12, 1700000000⟩]
    rfl rfl rfl (by decide) rfl rfl

/-- C8 counterexample: the claim says the returned `Response` is non-nil on
every exit path including decode errors.  At this concrete exchange — the
transport returned a response with a success envelope whose `data` cannot
decode into the deliveries slice — `Do` exits through the decode-error path
with an error but a nil `Response`. -/
theorem c8_claim_counterexample :
    respOf (getDeliveries (newClient "https://postal.example.com" "apikey") ⟨7⟩
      ⟨200, Body.parsed (Json.obj [("status", Json.str "success"), ("data", Json.num 5)])⟩)
      = none
    ∧ (errOf (getDeliveries (newClient "https://postal.example.com" "apikey") ⟨7⟩
      ⟨200, Body.parsed (Json.obj [("status", Json.str "success"), ("data", Json.num 5)])⟩)).isSome
      = true :=
  ⟨rfl, rfl⟩

/-- C8 (amended): whenever the transport returned a response, `Do` returns a
non-nil `Response` wrapping it on every normal exit path except the
decode-error exit, where it returns a nil `Response` alongside the error. -/
theorem c8_response_nil_iff_decode_error (α : Type) (r : HttpResponse)
    (target : Option (Body → Except String α)) (init : α) :
    doRespSpec r (doCall r target init) := by
  unfold doCall
  cases hc : checkResponse r with
  | crash m => simp [doRespSpec]
  | ok cr =>
    cases cr with
    | errorResp e => simp [doRespSpec, isDecodeErr]
    | body b =>
      cases target with
      | none => simp [doRespSpec, isDecodeErr]
      | some dec =>
        by_cases hsc : r.statusCode = statusNoContent
        · simp [hsc, doRespSpec, isDecodeErr]
        · cases hdec : dec b with
          | error m => simp [hsc, hdec, doRespSpec, isDecodeErr]
          | ok v => simp [hsc, hdec, doRespSpec, isDecodeErr]

/-- C9: `NewClient` and `SetBaseURL` store the result of the discarded-error
URL parse without reporting anything (their types carry no error), so an
unparseable base URL leaves a nil `BaseURL`, and any later `NewRequest` on
such a client crashes with a nil pointer dereference instead of returning a
request-construction error. -/
theorem c9_unparsed_base_url_discard_and_crash (s akey : String) (c : Client)
    (method urlStr : String) (body : Option Json) :
    (newClient s akey).BaseURL = parseGoURL s
    ∧ (setBaseURL c s).BaseURL = parseGoURL s
    ∧ (c.BaseURL = none →
        newRequest c method urlStr body = Outcome.crash "nil pointer dereference") := by
  refine ⟨rfl, rfl, fun h => ?_⟩
  simp [newRequest, h]

/-- C9 witness: the URL with an invalid percent escape fails to parse, the
client built from it holds a nil base URL, and building a request on that
client crashes. -/
theorem c9_unparsed_base_url_discard_and_crash_witness :
    parseGoURL "http://h/%zz" = none
    ∧ (newClient "http://h/%zz" "k").BaseURL = none
    ∧ newRequest (newClient "http://h/%zz" "k") "POST" sendPath none
      = Outcome.crash "nil pointer dereference" :=
  ⟨rfl, rfl, (c9_unparsed_base_url_discard_and_crash "http://h/%zz" "k"
    (newClient "http://h/%zz" "k") "POST" sendPath none).2.2 rfl⟩

/-- C10: on a success envelope whose `data` field is absent or null, each of
the four façade operations returns a nil typed-result pointer together with a
nil error (and a non-nil response, so the call really completed normally). -/
theorem c10_success_without_data_nil_result_nil_error (base : URL) (key ua : String)
    (hdrs : List (String × String)) (q1 : SendRequest) (q2 : SendRAWRequest)
    (q3 : GetMessageRequest) (q4 : GetDeliveriesRequest) (reply : ServerReply)
    (fs : List (String × Json)) (env : ResponseEnvelope)
    (hb : reply.body = Body.parsed (Json.obj fs))
    (he : decodeEnvelope (Json.obj fs) = Except.ok env)
    (hs : env.status = statusSuccess)
    (hsc : reply.statusCode ≠ statusNoContent)
    (hd : lookupField fs "data" = none ∨ lookupField fs "data" = some Json.null) :
    (resultOf (send ⟨some base, key, hdrs, ua⟩ q1 reply) = none
      ∧ errOf (send ⟨some base, key, hdrs, ua⟩ q1 reply) = none
      ∧ (respOf (send ⟨some base, key, hdrs, ua⟩ q1 reply)).isSome = true)
    ∧ (resultOf (sendRAW ⟨some base, key, hdrs, ua⟩ q2 reply) = none
      ∧ errOf (sendRAW ⟨some base, key, hdrs, ua⟩ q2 reply) = none
      ∧ (respOf (sendRAW ⟨some base, key, hdrs, ua⟩ q2 reply)).isSome = true)
    ∧ (resultOf (getMessage ⟨some base, key, hdrs, ua⟩ q3 reply) = none
      ∧ errOf (getMessage ⟨some base, key, hdrs, ua⟩ q3 reply) = none
      ∧ (respOf (getMessage ⟨some base, key, hdrs, ua⟩ q3 reply)).isSome = true)
    ∧ (resultOf (getDeliveries ⟨some base, key, hdrs, ua⟩ q4 reply) = none
      ∧ errOf (getDeliveries ⟨some base, key, hdrs, ua⟩ q4 reply) = none
      ∧ (respOf (getDeliveries ⟨some base, key, hdrs, ua⟩ q4 reply)).isSome = true) := by
  obtain ⟨sc, rb⟩ := reply
  have hb2 : rb = Body.parsed (Json.obj fs) := hb
  subst hb2
  have hsc2 : sc ≠ statusNoContent := hsc
  refine ⟨?_, ?_, ?_, ?_⟩
  · obtain ⟨r, h1, _, _, _, _⟩ := facadeCall_success base key hdrs ua "POST" sendPath
      (encodeSendRequest q1) decodeSendRoot ⟨none⟩ sendRoot.Hash sc (Json.obj fs) env ⟨none⟩
      he hs hsc2 (decodeSendRoot_noData fs hd)
    have h2 : send ⟨some base, key, hdrs, ua⟩ q1 ⟨sc, Body.parsed (Json.obj fs)⟩
        = Outcome.ok (none, some r, none) := h1
    exact ⟨by simp [h2, resultOf], by simp [h2, errOf], by simp [h2, respOf]⟩
  · obtain ⟨r, h1, _, _, _, _⟩ := facadeCall_success base key hdrs ua "POST" sendRawPath
      (encodeSendRAWRequest q2) decodeSendRoot ⟨none⟩ sendRoot.Hash sc (Json.obj fs) env ⟨none⟩
      he hs hsc2 (decodeSendRoot_noData fs hd)
    have h2 : sendRAW ⟨some base, key, hdrs, ua⟩ q2 ⟨sc, Body.parsed (Json.obj fs)⟩
        = Outcome.ok (none, some r, none) := h1
    exact ⟨by simp [h2, resultOf], by simp [h2, errOf], by simp [h2, respOf]⟩
  · obtain ⟨r, h1, _, _, _, _⟩ := facadeCall_success base key hdrs ua "POST" detailsPath
      (encodeGetMessageRequest q3) decodeMessageRoot ⟨none⟩ messageRoot.Message sc
      (Json.obj fs) env ⟨none⟩ he hs hsc2 (decodeMessageRoot_noData fs hd)
    have h2 : getMessage ⟨some base, key, hdrs, ua⟩ q3 ⟨sc, Body.parsed (Json.obj fs)⟩
        = Outcome.ok (none, some r, none) := h1
    exact ⟨by simp [h2, resultOf], by simp [h2, errOf], by simp [h2, respOf]⟩
  · obtain ⟨r, h1, _, _, _, _⟩ := facadeCall_success base key hdrs ua "POST" deliveriesPath
      (encodeGetDeliveriesRequest q4) decodeDeliveriesRoot ⟨none⟩ deliveriesRoot.Deliveries sc
      (Json.obj fs) env ⟨none⟩ he hs hsc2 (decodeDeliveriesRoot_noData fs hd)
    have h2 : getDeliveries ⟨some base, key, hdrs, ua⟩ q4 ⟨sc, Body.parsed (Json.obj fs)⟩
        = Outcome.ok (none, some r, none) := h1
    exact ⟨by simp [h2, resultOf], by simp [h2, errOf], by simp [h2, respOf]⟩

/-- C10 witness: the theorem applied to a success envelope with no `data`
field at all. -/
theorem c10_success_without_data_nil_result_nil_error_witness :
    (resultOf (send ⟨some ⟨"https", "postal.example.com", ""⟩, "apikey", [], userAgent⟩ {}
        ⟨200, Body.parsed (Json.obj [("status", Json.str "success")])⟩) = none
      ∧ errOf (send ⟨some ⟨"https", "postal.example.com", ""⟩, "apikey", [], userAgent⟩ {}
        ⟨200, Body.parsed (Json.obj [("status", Json.str "success")])⟩) = none
      ∧ (respOf (send ⟨some ⟨"https", "postal.example.com", ""⟩, "apikey", [], userAgent⟩ {}
        ⟨200, Body.parsed (Json.obj [("status", Json.str "success")])⟩)).isSome = true)
    ∧ (resultOf (sendRAW ⟨some ⟨"https", "postal.example.com", ""⟩, "apikey", [], userAgent⟩ {}
        ⟨200, Body.parsed (Json.obj [("status", Json.str "success")])⟩) = none
      ∧ errOf (sendRAW ⟨some ⟨"https", "postal.example.com", ""⟩, "apikey", [], userAgent⟩ {}
        ⟨200, Body.parsed (Json.obj [("status", Json.str "success")])⟩) = none
      ∧ (respOf (sendRAW ⟨some ⟨"https", "postal.example.com", ""⟩, "apikey", [], userAgent⟩ {}
        ⟨200, Body.parsed (Json.obj [("status", Json.str "success")])⟩)).isSome = true)
    ∧ (resultOf (getMessage ⟨some ⟨"https", "postal.example.com", ""⟩, "apikey", [], userAgent⟩
        {} ⟨200, Body.parsed (Json.obj [("status", Json.str "success")])⟩) = none
      ∧ errOf (getMessage ⟨some ⟨"https", "postal.example.com", ""⟩, "apikey", [], userAgent⟩
        {} ⟨200, Body.parsed (Json.obj [("status", Json.str "success")])⟩) = none
      ∧ (respOf (getMessage ⟨some ⟨"https", "postal.example.com", ""⟩, "apikey", [], userAgent⟩
        {} ⟨200, Body.parsed (Json.obj [("status", Json.str "success")])⟩)).isSome = true)
    ∧ (resultOf (getDeliveries
        ⟨some ⟨"https", "postal.example.com", ""⟩, "apikey", [], userAgent⟩ {}
        ⟨200, Body.parsed (Json.obj [("status", Json.str "success")])⟩) = none
      ∧ errOf (getDeliveries ⟨some ⟨"https", "postal.example.com", ""⟩, "apikey", [], userAgent⟩
        {} ⟨200, Body.parsed (Json.obj [("status", Json.str "success")])⟩) = none
      ∧ (respOf (getDeliveries
        ⟨some ⟨"https", "postal.example.com", ""⟩, "apikey", [], userAgent⟩ {}
        ⟨200, Body.parsed (Json.obj [("status", Json.str "success")])⟩)).isSome = true) :=
  c10_success_without_data_nil_result_nil_error ⟨"https", "postal.example.com", ""⟩ "apikey"
    userAgent [] {} {} {} {} ⟨200, Body.parsed (Json.obj [("status", Json.str "success")])⟩
    [("status", Json.str "success")] ⟨"success", 0, none, Json.null⟩
    rfl rfl rfl (by decide) (Or.inl rfl)

end Postal
